import Mathlib

/-
Formal model of the image-generation orchestration layer in
src/services/geminiService.ts (PastForward): data-URL parsing, the
retry executor `callGeminiWithRetry`, the response interpreter
`processGeminiResponse`, decade extraction and the fallback cycle in
`generateDecadeImage`.

The remote service is modelled as an oracle `world : Nat → CallResult`
giving the outcome of the n-th remote call (counted globally across the
primary and fallback retry cycles). JavaScript exceptions are modelled
as an explicit `thrown` result carrying the error message string.
-/

namespace PastForward

/-- JavaScript word character (regex `\w`): ASCII letter, digit or underscore. -/
def isWordChar (c : Char) : Bool :=
  c.isAlphanum || c = '_'

/-- JavaScript line terminator (not matched by `.` in a regex without the `s` flag). -/
def isLineTerminator (c : Char) : Bool :=
  c = '\n' || c = '\r' || c = Char.ofNat 8232 || c = Char.ofNat 8233

/-- ASCII lowercase mapping of a string, modelling `String.prototype.toLowerCase`
on the ASCII strings that appear in the service. -/
def lowerStr (s : String) : String :=
  String.mk (s.data.map Char.toLower)

/-- Whether `needle` occurs as a contiguous sublist of the haystack,
modelling `String.prototype.includes`. -/
def containsSubList (needle : List Char) : List Char → Bool
  | [] => needle.isEmpty
  | c :: rest => needle.isPrefixOf (c :: rest) || containsSubList needle rest

/-- String form of `containsSubList`: `hay.includes(needle)`. -/
def containsSub (hay needle : String) : Bool :=
  containsSubList needle.data hay.data

/-- Strip an exact prefix from a character list, returning the remainder. -/
def stripPre : List Char → List Char → Option (List Char)
  | [], cs => some cs
  | _ :: _, [] => none
  | p :: ps, c :: cs => if p = c then stripPre ps cs else none

/-- Inline binary payload of a response part: `{ mimeType, data }`. -/
structure InlineData where
  mimeType : String
  data : String
deriving DecidableEq

/-- One content part of a model reply: optional inline binary data and optional text. -/
structure Part where
  inlineData : Option InlineData
  text : Option String
deriving DecidableEq

/-- Content of a candidate: an optional list of parts. -/
structure Content where
  parts : Option (List Part)
deriving DecidableEq

/-- One candidate of a model reply. -/
structure Candidate where
  content : Option Content
deriving DecidableEq

/-- A raw remote reply (`GenerateContentResponse`): an optional candidate list. -/
structure GenerateContentResponse where
  candidates : Option (List Candidate)
deriving DecidableEq

/-- The image payload built by the request builder from the input data-URL:
`{ mimeType, data }` as placed into the request `inlineData`. -/
structure ImagePayload where
  mimeType : String
  data : String
deriving DecidableEq

/-- One remote generation request: the image payload and the prompt text sent. -/
structure GenRequest where
  image : ImagePayload
  promptText : String
deriving DecidableEq

/-- Result of one remote call as decided by the oracle: a reply or a thrown error message. -/
inductive CallResult where
  | success : GenerateContentResponse → CallResult
  | failure : String → CallResult
deriving DecidableEq

/-- Outcome of one retry-executor invocation: a reply returned, or an exception. -/
inductive RetryOutcome where
  | reply : GenerateContentResponse → RetryOutcome
  | thrown : String → RetryOutcome
deriving DecidableEq

/-- Observable trace of one `callGeminiWithRetry` invocation: how many remote
calls were issued, the backoff delays slept (in ms, in order), and the outcome. -/
structure RetryExec where
  calls : Nat
  delays : List Nat
  outcome : RetryOutcome
deriving DecidableEq

/-- Result of a JavaScript function that returns a string or throws. -/
inductive JsResult where
  | ok : String → JsResult
  | thrown : String → JsResult
deriving DecidableEq

/-- Observable trace of one `generateDecadeImage` invocation: every remote
request issued (in order), every delay slept, and the final result. -/
structure GdiTrace where
  requests : List GenRequest
  delays : List Nat
  result : JsResult
deriving DecidableEq

/-- Fallback prompt template (`getFallbackPrompt` in the source). -/
def getFallbackPrompt (decade : String) : String :=
  "Reimagine the person in this photo as if they were in the " ++ decade ++
    ". Focus on clothing and hairstyle. Ensure it looks like an authentic vintage photograph."

/-- Whether a decade token (`\d{4}s`) starts at the head of the character list;
if so, returns it. -/
def decadeAt : List Char → Option String
  | d1 :: d2 :: d3 :: d4 :: s :: _ =>
    if d1.isDigit && d2.isDigit && d3.isDigit && d4.isDigit && s = 's' then
      some (String.mk [d1, d2, d3, d4, s])
    else none
  | _ => none

/-- Leftmost match of `\d{4}s` in a character list. -/
def scanDecade : List Char → Option String
  | [] => none
  | c :: rest =>
    match decadeAt (c :: rest) with
    | some m => some m
    | none => scanDecade rest

/-- The source `extractDecade`: `prompt.match(/(\d{4}s)/)`, first match or null. -/
def extractDecade (prompt : String) : Option String :=
  scanDecade prompt.data

/-- The part lookup `response.candidates?.[0]?.content?.parts?.find(part => part.inlineData)`. -/
def findInlinePart (r : GenerateContentResponse) : Option Part :=
  match r.candidates with
  | some (c :: _) =>
    match c.content with
    | some ct =>
      match ct.parts with
      | some ps => ps.find? fun p => p.inlineData.isSome
      | none => none
    | none => none
  | _ => none

/-- Modelled from the spec: the reply's aggregate text field (the `text`
getter the @google/genai SDK provides on `GenerateContentResponse`, whose
source is not part of this repository) — the concatenated text of the text
parts of the first candidate, absent when there is none. -/
def responseText (r : GenerateContentResponse) : Option String :=
  match r.candidates with
  | some (c :: _) =>
    match c.content with
    | some ct =>
      match ct.parts with
      | some ps =>
        let ts := ps.filterMap Part.text
        if ts.isEmpty then none else some (String.join ts)
      | none => none
    | none => none
  | _ => none

/-- Default message thrown by `processGeminiResponse` when the reply text is
absent or empty (JavaScript `textResponse || default`). -/
def defaultTextMsg : String :=
  "The AI returned a text response instead of an image."

/-- The source `processGeminiResponse`: return the data-URL of the first
inline-data part of the first candidate, else throw the reply text
(or the default message when that text is absent or empty). -/
def processGeminiResponse (r : GenerateContentResponse) : JsResult :=
  match (findInlinePart r).bind Part.inlineData with
  | some d => .ok ("data:" ++ d.mimeType ++ ";base64," ++ d.data)
  | none =>
    match responseText r with
    | some t => if t = "" then .thrown defaultTextMsg else .thrown t
    | none => .thrown defaultTextMsg

/-- The retriability test of the source retry loop:
`errorMessage.includes('500') || errorMessage.includes('INTERNAL') || errorMessage.includes('429')`. -/
def isRetriable (msg : String) : Bool :=
  containsSub msg "500" || containsSub msg "INTERNAL" || containsSub msg "429"

/-- Message thrown by `callGeminiWithRetry` when no API key is resolvable. -/
def missingKeyMsg : String :=
  "API_KEY is missing. Please rename your Vercel environment variable from \x27GOOGLE_API_KEY\x27 to \x27API_KEY\x27 and re-deploy."

/-- Message thrown if the retry loop falls through (unreachable for maxRetries ≥ 1). -/
def maxRetriesMsg : String :=
  "Maximum retries reached for Gemini API."

/-- The retry loop of `callGeminiWithRetry`, from a given attempt number.
`startIdx` is the global index of the next remote call, `fuel` the number of
loop iterations still allowed (`maxRetries + 1 - attempt`). On a retriable
failure with attempts remaining it sleeps `initialDelay * attempt` and
continues; otherwise the error is rethrown. -/
def retryFuel (world : Nat → CallResult) (maxRetries initialDelay : Nat) :
    Nat → Nat → Nat → RetryExec
  | _, _, 0 => ⟨0, [], .thrown maxRetriesMsg⟩
  | startIdx, attempt, fuel + 1 =>
    match world startIdx with
    | .success r => ⟨1, [], .reply r⟩
    | .failure msg =>
      if isRetriable msg ∧ attempt < maxRetries then
        let rest := retryFuel world maxRetries initialDelay (startIdx + 1) (attempt + 1) fuel
        ⟨rest.calls + 1, initialDelay * attempt :: rest.delays, rest.outcome⟩
      else ⟨1, [], .thrown msg⟩

/-- The source `callGeminiWithRetry`: resolve the API key (throwing when it is
absent or empty), then run up to `maxRetries = 2` attempts with
`initialDelay = 1500` linear backoff. -/
def callGeminiWithRetry (world : Nat → CallResult) (apiKey : Option String)
    (startIdx : Nat) : RetryExec :=
  if apiKey.getD "" = "" then ⟨0, [], .thrown missingKeyMsg⟩
  else retryFuel world 2 1500 startIdx 1 2

/-- Message thrown by `generateDecadeImage` on a malformed input data-URL. -/
def invalidFormatMsg : String :=
  "Invalid image format. Please try re-uploading."

/-- The input match `^data:(image\/\w+);base64,(.*)$` of `generateDecadeImage`:
the captured MIME type (`image/` then one or more word characters) and the
captured payload (which `.` forbids from holding line terminators). -/
def matchDataUrl (s : String) : Option (String × String) :=
  match stripPre "data:image/".data s.data with
  | none => none
  | some rest =>
    let w := rest.takeWhile isWordChar
    if w.isEmpty then none
    else
      match stripPre ";base64,".data (rest.dropWhile isWordChar) with
      | none => none
      | some payload =>
        if payload.any isLineTerminator then none
        else some ("image/" ++ String.mk w, String.mk payload)

/-- The catch block of `generateDecadeImage`: when the surfaced error message
contains "safety" or "text response" (case-insensitive) and the original
prompt holds a decade token, run exactly one fallback retry cycle with the
fallback prompt; otherwise rethrow the original error. -/
def gdiCatch (world : Nat → CallResult) (apiKey : Option String)
    (imagePart : ImagePayload) (prompt msg : String)
    (primReqs : List GenRequest) (primDelays : List Nat) : GdiTrace :=
  if containsSub (lowerStr msg) "safety" || containsSub (lowerStr msg) "text response" then
    match extractDecade prompt with
    | some decade =>
      let fb := callGeminiWithRetry world apiKey primReqs.length
      let fbReqs := List.replicate fb.calls ⟨imagePart, getFallbackPrompt decade⟩
      match fb.outcome with
      | .reply r2 =>
        match processGeminiResponse r2 with
        | .ok url => ⟨primReqs ++ fbReqs, primDelays ++ fb.delays, .ok url⟩
        | .thrown m2 => ⟨primReqs ++ fbReqs, primDelays ++ fb.delays, .thrown m2⟩
      | .thrown m2 => ⟨primReqs ++ fbReqs, primDelays ++ fb.delays, .thrown m2⟩
    | none => ⟨primReqs, primDelays, .thrown msg⟩
  else ⟨primReqs, primDelays, .thrown msg⟩

/-- The source `generateDecadeImage`: validate the input data-URL, build the
image payload, run the primary retry cycle and interpret its reply; on a
thrown error, run the catch block above. -/
def generateDecadeImage (world : Nat → CallResult) (apiKey : Option String)
    (imageDataUrl prompt : String) : GdiTrace :=
  match matchDataUrl imageDataUrl with
  | none => ⟨[], [], .thrown invalidFormatMsg⟩
  | some (mimeType, base64Data) =>
    let imagePart : ImagePayload := ⟨mimeType, base64Data⟩
    let primary := callGeminiWithRetry world apiKey 0
    let primReqs := List.replicate primary.calls ⟨imagePart, prompt⟩
    match primary.outcome with
    | .reply r =>
      match processGeminiResponse r with
      | .ok url => ⟨primReqs, primary.delays, .ok url⟩
      | .thrown msg => gdiCatch world apiKey imagePart prompt msg primReqs primary.delays
    | .thrown msg => gdiCatch world apiKey imagePart prompt msg primReqs primary.delays

/-- Modelled from the spec: the terminal error classes of the retry policy
(quota exceeded, billing error, entity-not-found, authorization failure),
recognised by case-insensitive markers in the error message. -/
def isTerminalSpec (msg : String) : Bool :=
  containsSub (lowerStr msg) "quota" || containsSub (lowerStr msg) "billing" ||
    containsSub (lowerStr msg) "not found" || containsSub (lowerStr msg) "unauthorized" ||
    containsSub (lowerStr msg) "permission"

/-- Whether the character list holds a three-character run looking like a
5xx HTTP status code: a literal 5 followed by two digits. -/
def hasFiveXX : List Char → Bool
  | [] => false
  | c :: rest =>
    (match rest with
      | d2 :: d3 :: _ => c = '5' && d2.isDigit && d3.isDigit
      | _ => false) || hasFiveXX rest

/-- Modelled from the spec: the transient error class of the retry policy
(server-side 5xx / internal error), recognised by a 5xx status code or an
internal-error marker in the message. -/
def isTransientSpec (msg : String) : Bool :=
  hasFiveXX msg.data || containsSub (lowerStr msg) "internal"

/-- Whether a character belongs to the standard base64 alphabet. -/
def isBase64Char (c : Char) : Bool :=
  c.isAlphanum || c = '+' || c = '/'

/-- Modelled from the spec: validity of a base64 string — a body over the
base64 alphabet, then at most two `=` padding characters, with total length a
multiple of four. -/
def validBase64 (s : String) : Bool :=
  let cs := s.data
  let body := cs.takeWhile isBase64Char
  let pad := cs.drop body.length
  decide (cs.length % 4 = 0) && pad.all (fun c => c = '=') && decide (pad.length ≤ 2)

/-- A reply holding a single text part. -/
def textOnlyR (t : String) : GenerateContentResponse :=
  ⟨some [⟨some ⟨some [⟨none, some t⟩]⟩⟩]⟩

/-- A reply holding a single inline-image part. -/
def imageR (mt dat : String) : GenerateContentResponse :=
  ⟨some [⟨some ⟨some [⟨some ⟨mt, dat⟩, none⟩]⟩⟩]⟩

lemma isPrefixOf_append_self (d b : List Char) : d.isPrefixOf (d ++ b) = true := by
  induction d with
  | nil => simp [List.isPrefixOf]
  | cons c cs ih => simp [List.isPrefixOf, ih]

lemma containsSubList_here (d b : List Char) : containsSubList d (d ++ b) = true := by
  cases d with
  | nil =>
    cases b with
    | nil => rfl
    | cons c cs => simp [containsSubList]
  | cons c cs =>
    have h := isPrefixOf_append_self (c :: cs) b
    simp only [List.cons_append] at h ⊢
    simp [containsSubList, h]

lemma containsSubList_cons (d : List Char) (c : Char) (rest : List Char)
    (h : containsSubList d rest = true) : containsSubList d (c :: rest) = true := by
  simp [containsSubList, h]

lemma containsSubList_mid (d b a : List Char) : containsSubList d (a ++ (d ++ b)) = true := by
  induction a with
  | nil => simpa using containsSubList_here d b
  | cons c cs ih => simpa using containsSubList_cons d c (cs ++ (d ++ b)) ih

lemma containsSub_middle (s1 d s2 : String) : containsSub (s1 ++ d ++ s2) d = true := by
  have hdata : (s1 ++ d ++ s2).data = s1.data ++ (d.data ++ s2.data) := by
    rw [String.data_append, String.data_append, List.append_assoc]
  show containsSubList d.data (s1 ++ d ++ s2).data = true
  rw [hdata]
  exact containsSubList_mid d.data s2.data s1.data

lemma find_skip_none (pre rest : List Part)
    (hpre : ∀ q ∈ pre, q.inlineData = none) :
    (pre ++ rest).find? (fun p => p.inlineData.isSome) =
      rest.find? (fun p => p.inlineData.isSome) := by
  induction pre with
  | nil => rfl
  | cons q qs ih =>
    have hq : q.inlineData = none := hpre q (by simp)
    have hqs : ∀ x ∈ qs, x.inlineData = none := fun x hx => hpre x (by simp [hx])
    simp [List.find?, hq, ih hqs]

lemma all_takeWhile_self (p : Char → Bool) (l : List Char) :
    (l.takeWhile p).all p = true := by
  induction l with
  | nil => rfl
  | cons c cs ih =>
    by_cases hc : p c
    · simp [List.takeWhile_cons, hc, ih]
    · simp [List.takeWhile_cons, hc]

/-- C1 counterexample: "503 Service Unavailable" is a transient 5xx-class
error under the claim's classification, yet the retry executor does not retry
it at all — 1 attempt, no delay, immediate propagation — because the source
only treats messages containing "500", "INTERNAL" or "429" as retriable. -/
theorem transient_503_not_retried :
    isTransientSpec "503 Service Unavailable" = true ∧
    isRetriable "503 Service Unavailable" = false ∧
    callGeminiWithRetry (fun _ => .failure "503 Service Unavailable") (some "key") 0 =
      ⟨1, [], .thrown "503 Service Unavailable"⟩ := by
  decide

/-- C1 amended: when every remote attempt fails with an error whose message
contains one of the retriable markers "500", "INTERNAL" or "429", the retry
executor makes exactly 2 attempts, sleeps a single 1500ms delay between
attempt 1 and attempt 2 and none after the final attempt, and surfaces the
exhausted-retries failure: the retriable error of the final attempt is
propagated once the retry budget is spent. 5xx-class errors lacking all three
markers are not retried. -/
theorem retriable_failure_two_attempts (world : Nat → CallResult) (key m1 m2 : String)
    (hk : ¬ key = "") (h0 : world 0 = .failure m1) (h1 : world 1 = .failure m2)
    (hm1 : isRetriable m1 = true) (hm2 : isRetriable m2 = true) :
    callGeminiWithRetry world (some key) 0 = ⟨2, [1500], .thrown m2⟩ := by
  simp [callGeminiWithRetry, retryFuel, h0, h1, hm1, hm2, hk]

/-- Witness for the amended C1 at a concrete oracle whose failures exercise
both the "INTERNAL" and the "500" markers. -/
theorem retriable_failure_two_attempts_witness :
    isRetriable "INTERNAL error" = true ∧ isRetriable "HTTP 500" = true ∧
    callGeminiWithRetry
      (fun n => if n = 0 then .failure "INTERNAL error" else .failure "HTTP 500")
      (some "key") 0 = ⟨2, [1500], .thrown "HTTP 500"⟩ :=
  ⟨by decide, by decide,
    retriable_failure_two_attempts _ "key" "INTERNAL error" "HTTP 500"
      (by decide) (by decide) (by decide) (by decide) (by decide)⟩

/-- C2 counterexample: a quota/billing error carrying the 429 status code is
terminal under the claim's classification (quota exceeded, billing), yet the
retry executor retries it — 2 attempts and a 1500ms delay, not exactly 1
attempt with no delay — because the source treats any message containing
"429" as retriable. -/
theorem quota_429_retried :
    isTerminalSpec "429 RESOURCE_EXHAUSTED: quota exceeded for the billing plan" = true ∧
    callGeminiWithRetry
      (fun _ => .failure "429 RESOURCE_EXHAUSTED: quota exceeded for the billing plan")
      (some "key") 0 =
      ⟨2, [1500], .thrown "429 RESOURCE_EXHAUSTED: quota exceeded for the billing plan"⟩ := by
  decide

/-- C2 amended: for every remote call whose first attempt fails with an error
whose message contains none of the retriable markers "500", "INTERNAL" and
"429", exactly 1 attempt is made, no backoff delay occurs, and the error
surfaces immediately regardless of remaining attempt budget. -/
theorem nonretriable_single_attempt (world : Nat → CallResult) (key m : String)
    (hk : ¬ key = "") (h0 : world 0 = .failure m) (hnr : isRetriable m = false) :
    callGeminiWithRetry world (some key) 0 = ⟨1, [], .thrown m⟩ := by
  simp [callGeminiWithRetry, retryFuel, h0, hnr, hk]

/-- Witness for the amended C2 at a concrete authorization failure. -/
theorem nonretriable_single_attempt_witness :
    isRetriable "PERMISSION_DENIED: API key not valid" = false ∧
    callGeminiWithRetry (fun _ => .failure "PERMISSION_DENIED: API key not valid")
      (some "key") 0 = ⟨1, [], .thrown "PERMISSION_DENIED: API key not valid"⟩ :=
  ⟨by decide,
    nonretriable_single_attempt _ "key" "PERMISSION_DENIED: API key not valid"
      (by decide) (by decide) (by decide)⟩

/-- C3 counterexample: a text-only reply whose text lacks the "safety" marker
but contains "text response" does trigger a second remote call — the fallback
condition also matches "text response", so an UnexpectedTextOnly reply of this
shape is not distinguished from a policy rejection. -/
theorem text_response_marker_triggers_fallback :
    containsSub (lowerStr "I can only give a text response here.") "safety" = false ∧
    (generateDecadeImage
      (fun n => if n = 0 then .success (textOnlyR "I can only give a text response here.")
        else .success (imageR "image/png" "QUJD"))
      (some "key") "data:image/png;base64,QQ==" "A 1970s portrait").requests.length = 2 := by
  decide

/-- C3 amended: the fallback cycle is triggered exactly when the surfaced
error message contains "safety" or "text response" (case-insensitive); when
the primary reply is interpreted as a failure whose message contains neither
marker, no second remote call is made and that failure is final. -/
theorem no_marker_no_fallback (world : Nat → CallResult) (key : String)
    (r : GenerateContentResponse) (t mt dat url prompt : String)
    (hk : ¬ key = "") (hu : matchDataUrl url = some (mt, dat))
    (h0 : world 0 = .success r) (hp : processGeminiResponse r = .thrown t)
    (hs : containsSub (lowerStr t) "safety" = false)
    (htr : containsSub (lowerStr t) "text response" = false) :
    generateDecadeImage world (some key) url prompt =
      ⟨[⟨⟨mt, dat⟩, prompt⟩], [], .thrown t⟩ := by
  have hcall : callGeminiWithRetry world (some key) 0 = ⟨1, [], .reply r⟩ := by
    simp [callGeminiWithRetry, retryFuel, h0, hk]
  simp [generateDecadeImage, hu, hcall, hp, gdiCatch, hs, htr]

/-- Witness for the amended C3 at a concrete marker-free text reply. -/
theorem no_marker_no_fallback_witness :
    processGeminiResponse (textOnlyR "I will not do that.") = .thrown "I will not do that." ∧
    generateDecadeImage (fun _ => .success (textOnlyR "I will not do that."))
      (some "key") "data:image/png;base64,QQ==" "A 1970s portrait" =
      ⟨[⟨⟨"image/png", "QQ=="⟩, "A 1970s portrait"⟩], [], .thrown "I will not do that."⟩ :=
  ⟨by decide,
    no_marker_no_fallback _ "key" (textOnlyR "I will not do that.")
      "I will not do that." "image/png" "QQ==" "data:image/png;base64,QQ=="
      "A 1970s portrait" (by decide) (by decide) (by decide) (by decide)
      (by decide) (by decide)⟩

/-- C4: every input string not matching the data-URL pattern makes
generateDecadeImage fail with the invalid-format error while issuing no
remote call at all. -/
theorem invalid_input_no_remote_call (world : Nat → CallResult)
    (apiKey : Option String) (s p : String) (h : matchDataUrl s = none) :
    generateDecadeImage world apiKey s p = ⟨[], [], .thrown invalidFormatMsg⟩ := by
  simp [generateDecadeImage, h]

/-- Witness for C4 at a concrete malformed input. -/
theorem invalid_input_no_remote_call_witness :
    matchDataUrl "hello" = none ∧
    generateDecadeImage (fun _ => .failure "boom") (some "key") "hello" "p" =
      ⟨[], [], .thrown invalidFormatMsg⟩ :=
  ⟨by decide,
    invalid_input_no_remote_call _ (some "key") "hello" "p" (by decide)⟩

/-- C5: for every reply whose first candidate has a part list holding an
inline-data part, the interpreter returns exactly the data-URL built from the
first such part, regardless of the non-image parts preceding it. -/
theorem first_inline_part_wins (r : GenerateContentResponse) (c : Candidate)
    (cs : List Candidate) (ct : Content) (pre post : List Part) (pt : Part)
    (d : InlineData)
    (hc : r.candidates = some (c :: cs)) (hct : c.content = some ct)
    (hps : ct.parts = some (pre ++ pt :: post))
    (hpre : ∀ q ∈ pre, q.inlineData = none)
    (hd : pt.inlineData = some d) :
    processGeminiResponse r = .ok ("data:" ++ d.mimeType ++ ";base64," ++ d.data) := by
  have hfind : findInlinePart r = some pt := by
    simp [findInlinePart, hc, hct, hps, find_skip_none pre (pt :: post) hpre,
      List.find?, hd]
  simp [processGeminiResponse, hfind, hd]

/-- Witness for C5: a text part precedes the image part, and the image part wins. -/
theorem first_inline_part_wins_witness :
    processGeminiResponse
      ⟨some [⟨some ⟨some [⟨none, some "caption"⟩, ⟨some ⟨"image/png", "QUJD"⟩, none⟩]⟩⟩]⟩ =
      .ok ("data:" ++ "image/png" ++ ";base64," ++ "QUJD") :=
  first_inline_part_wins _ ⟨some ⟨some [⟨none, some "caption"⟩, ⟨some ⟨"image/png", "QUJD"⟩, none⟩]⟩⟩
    [] ⟨some [⟨none, some "caption"⟩, ⟨some ⟨"image/png", "QUJD"⟩, none⟩]⟩
    [⟨none, some "caption"⟩] [] ⟨some ⟨"image/png", "QUJD"⟩, none⟩ ⟨"image/png", "QUJD"⟩
    rfl rfl rfl (by decide) rfl

/-- C6 counterexample: a reply with no candidates is not classified as a
distinct EmptyResponse failure — it yields the same generic default message
as a candidate reply with neither image nor text, and that message even
contains the fallback-triggering marker "text response". -/
theorem no_candidates_not_distinct :
    processGeminiResponse ⟨none⟩ = .thrown defaultTextMsg ∧
    processGeminiResponse ⟨some [⟨some ⟨some [⟨none, none⟩]⟩⟩]⟩ = .thrown defaultTextMsg ∧
    containsSub (lowerStr defaultTextMsg) "text response" = true := by
  decide

/-- C6 amended: every reply with no candidates makes the interpreter fail with
the generic default message "The AI returned a text response instead of an
image." — the same failure as a text-less candidate reply, not a distinct
EmptyResponse kind. -/
theorem no_candidates_default_failure (r : GenerateContentResponse)
    (h : r.candidates = none) :
    processGeminiResponse r = .thrown defaultTextMsg := by
  obtain ⟨cands⟩ := r
  simp only at h
  subst h
  rfl

/-- Witness for the amended C6 at the empty reply. -/
theorem no_candidates_default_failure_witness :
    processGeminiResponse ⟨none⟩ = .thrown defaultTextMsg :=
  no_candidates_default_failure ⟨none⟩ rfl

/-- C7: when the primary reply is a policy rejection (its text contains
"safety") but the prompt holds no decade token, no second remote call is made
and the original rejection is the final outcome. -/
theorem no_decade_no_fallback (world : Nat → CallResult) (key : String)
    (r : GenerateContentResponse) (t mt dat url prompt : String)
    (hk : ¬ key = "") (hu : matchDataUrl url = some (mt, dat))
    (h0 : world 0 = .success r) (hp : processGeminiResponse r = .thrown t)
    (hs : containsSub (lowerStr t) "safety" = true)
    (hdec : extractDecade prompt = none) :
    generateDecadeImage world (some key) url prompt =
      ⟨[⟨⟨mt, dat⟩, prompt⟩], [], .thrown t⟩ := by
  have hcall : callGeminiWithRetry world (some key) 0 = ⟨1, [], .reply r⟩ := by
    simp [callGeminiWithRetry, retryFuel, h0, hk]
  simp [generateDecadeImage, hu, hcall, hp, gdiCatch, hs, hdec]

/-- Witness for C7 at a concrete safety rejection with a decade-free prompt. -/
theorem no_decade_no_fallback_witness :
    extractDecade "vintage look" = none ∧
    generateDecadeImage (fun _ => .success (textOnlyR "Blocked by safety filters."))
      (some "key") "data:image/jpeg;base64,QQ==" "vintage look" =
      ⟨[⟨⟨"image/jpeg", "QQ=="⟩, "vintage look"⟩], [], .thrown "Blocked by safety filters."⟩ :=
  ⟨by decide,
    no_decade_no_fallback _ "key" (textOnlyR "Blocked by safety filters.")
      "Blocked by safety filters." "image/jpeg" "QQ==" "data:image/jpeg;base64,QQ=="
      "vintage look" (by decide) (by decide) (by decide) (by decide) (by decide)
      (by decide)⟩

/-- C8: when the primary reply is a policy rejection and the prompt holds a
decade token, exactly one fallback cycle runs through the same retry executor
with the original image and the fallback prompt (which references the decade
token); when the fallback reply holds an image, its data-URL is the final
result and no further call is made. -/
theorem decade_fallback_single_cycle (world : Nat → CallResult) (key : String)
    (r r2 : GenerateContentResponse) (t d u mt dat url prompt : String)
    (hk : ¬ key = "") (hu : matchDataUrl url = some (mt, dat))
    (h0 : world 0 = .success r) (hp : processGeminiResponse r = .thrown t)
    (hs : containsSub (lowerStr t) "safety" = true)
    (hdec : extractDecade prompt = some d)
    (h1 : world 1 = .success r2)
    (hp2 : processGeminiResponse r2 = .ok u) :
    generateDecadeImage world (some key) url prompt =
      ⟨[⟨⟨mt, dat⟩, prompt⟩, ⟨⟨mt, dat⟩, getFallbackPrompt d⟩], [], .ok u⟩ ∧
    containsSub (getFallbackPrompt d) d = true := by
  constructor
  · have hcall : callGeminiWithRetry world (some key) 0 = ⟨1, [], .reply r⟩ := by
      simp [callGeminiWithRetry, retryFuel, h0, hk]
    have hcall2 : callGeminiWithRetry world (some key) 1 = ⟨1, [], .reply r2⟩ := by
      simp [callGeminiWithRetry, retryFuel, h1, hk]
    simp [generateDecadeImage, hu, hcall, hp, gdiCatch, hs, hdec, hcall2, hp2]
  · unfold getFallbackPrompt
    exact containsSub_middle _ d _

/-- Witness for C8 at a concrete safety rejection followed by a fallback image. -/
theorem decade_fallback_single_cycle_witness :
    extractDecade "A 1970s portrait" = some "1970s" ∧
    (generateDecadeImage
      (fun n => if n = 0 then .success (textOnlyR "Blocked by safety filters.")
        else .success (imageR "image/png" "QUJD"))
      (some "key") "data:image/jpeg;base64,QQ==" "A 1970s portrait" =
      ⟨[⟨⟨"image/jpeg", "QQ=="⟩, "A 1970s portrait"⟩,
        ⟨⟨"image/jpeg", "QQ=="⟩, getFallbackPrompt "1970s"⟩], [],
        .ok "data:image/png;base64,QUJD"⟩ ∧
      containsSub (getFallbackPrompt "1970s") "1970s" = true) :=
  ⟨by decide,
    decade_fallback_single_cycle _ "key" (textOnlyR "Blocked by safety filters.")
      (imageR "image/png" "QUJD") "Blocked by safety filters." "1970s"
      "data:image/png;base64,QUJD" "image/jpeg" "QQ==" "data:image/jpeg;base64,QQ=="
      "A 1970s portrait" (by decide) (by decide) (by decide) (by decide)
      (by decide) (by decide) (by decide) (by decide)⟩

/-- C9 counterexample: the request builder accepts a payload that is not valid
base64 — the input passes the pattern match, the ImagePayload is constructed
with data "????", and that payload is sent to the remote call. -/
theorem payload_not_base64_cex :
    matchDataUrl "data:image/png;base64,????" = some ("image/png", "????") ∧
    validBase64 "????" = false ∧
    (generateDecadeImage (fun _ => .failure "boom") (some "key")
      "data:image/png;base64,????" "p").requests = [⟨⟨"image/png", "????"⟩, "p"⟩] := by
  decide

/-- C9 amended: every ImagePayload constructed by the request builder has a
mimeType of the form image/ followed by one or more word characters (hence
matching image/*); the data field is the raw captured payload, whose base64
validity is not checked. -/
theorem mime_type_word_invariant (s mt dat : String)
    (h : matchDataUrl s = some (mt, dat)) :
    ∃ w : List Char, w ≠ [] ∧ w.all isWordChar = true ∧ mt = "image/" ++ String.mk w := by
  unfold matchDataUrl at h
  cases hs : stripPre "data:image/".data s.data with
  | none => rw [hs] at h; simp at h
  | some rest =>
    rw [hs] at h
    simp only at h
    by_cases hw : (rest.takeWhile isWordChar).isEmpty
    · simp [hw] at h
    · simp only [hw, if_false, Bool.false_eq_true] at h
      cases hb : stripPre ";base64,".data (rest.dropWhile isWordChar) with
      | none => rw [hb] at h; simp at h
      | some payload =>
        rw [hb] at h
        by_cases hlt : payload.any isLineTerminator
        · simp [hlt] at h
        · simp only [hlt, if_false, Bool.false_eq_true, Option.some.injEq,
            Prod.mk.injEq] at h
          refine ⟨rest.takeWhile isWordChar, ?_, all_takeWhile_self _ _, h.1.symm⟩
          intro hnil
          exact hw (by simp [hnil])

/-- Witness for the amended C9 at a concrete well-formed data-URL. -/
theorem mime_type_word_invariant_witness :
    matchDataUrl "data:image/png;base64,AA==" = some ("image/png", "AA==") ∧
    ∃ w : List Char, w ≠ [] ∧ w.all isWordChar = true ∧
      "image/png" = "image/" ++ String.mk w :=
  ⟨by decide,
    mime_type_word_invariant "data:image/png;base64,AA==" "image/png" "AA==" (by decide)⟩

/-- C10: an otherwise well-formed image data-URL whose MIME subtype holds a
non-word character is rejected with the invalid-format error before any
remote call is made. -/
theorem svg_mime_rejected :
    matchDataUrl "data:image/svg+xml;base64,QQ==" = none ∧
    generateDecadeImage (fun _ => .failure "x") (some "key")
      "data:image/svg+xml;base64,QQ==" "p" = ⟨[], [], .thrown invalidFormatMsg⟩ := by
  decide

end PastForward
